import Mathlib

/-!
Shallow embedding of the data pipeline of `src/app.py` (a single-page
fraud-detection report). The script loads a scored-transactions table,
builds a per-row `event_time` from component columns (lines 104-115),
buckets it into periods (lines 118-125), aggregates a fraud rate per
period (lines 127-132), computes five KPI scalars over the whole table
(lines 80-92), computes two categorical breakdowns restricted to
`prediction == 1` rows (lines 151, 177-180), and renders a detail table
and CSV export of the `prediction == 1` rows (lines 195-208).

Numeric columns are embedded as `ℚ` (pandas float/int arithmetic on the
values these claims touch is exact), timestamps as an explicit
`DateTime` record, and fallible pandas operations as `Except`/`Option`.
-/

namespace FraudApp

/-- A point in time at minute precision, as produced by
`pd.to_datetime` on the string `"Y-MM-DD HH:MM"` built at lines 105-112. -/
structure DateTime where
  year : Int
  month : Int
  day : Int
  hour : Int
  minute : Int
deriving DecidableEq, Repr

/-- Gregorian leap-year rule, as used by the datetime parser. -/
def isLeap (y : Int) : Bool :=
  (y % 4 == 0 && y % 100 != 0) || (y % 400 == 0)

/-- Days in a month of the proleptic Gregorian calendar. -/
def daysInMonth (y m : Int) : Int :=
  if m = 2 then (if isLeap y then 29 else 28)
  else if m = 4 ∨ m = 6 ∨ m = 9 ∨ m = 11 then 30
  else 31

/-- Validity of the components as a calendar date-time that
`pd.to_datetime` accepts. The year bound reflects the representable
range of a pandas `Timestamp` (1677-09-21 to 2262-04-11, nanosecond
epoch); we use the whole years inside that range, which agrees with the
source on every date the claims mention. -/
def validDT (y m d h mi : Int) : Prop :=
  1678 ≤ y ∧ y ≤ 2261 ∧ 1 ≤ m ∧ m ≤ 12 ∧ 1 ≤ d ∧ d ≤ daysInMonth y m ∧
    0 ≤ h ∧ h ≤ 23 ∧ 0 ≤ mi ∧ mi ≤ 59

instance (y m d h mi : Int) : Decidable (validDT y m d h mi) := by
  unfold validDT; infer_instance

/-- Lines 105-112: `pd.to_datetime(Y + "-" + MM + "-" + DD + " " + HH + ":" + MM2, errors="coerce")`
applied to one row's zero-padded components: a valid combination parses
to the corresponding point in time, anything else is coerced to missing
(`NaT`) instead of raising. -/
def toDatetimeCoerce (y m d h mi : Int) : Option DateTime :=
  if validDT y m d h mi then some ⟨y, m, d, h, mi⟩ else none

/-- One transaction row, with the columns the pipeline reads. -/
structure RawRow where
  prediction : ℚ
  amt : ℚ
  category : String
  state : String
  trans_year : Int
  trans_month : Int
  trans_day : Int
  trans_hour : Int
  trans_minute : Int
deriving DecidableEq, Repr

/-- Per-row `event_time` (lines 105-112), when the minute column is
present so that the construction runs at all. -/
def event_time (r : RawRow) : Option DateTime :=
  toDatetimeCoerce r.trans_year r.trans_month r.trans_day r.trans_hour r.trans_minute

/-- A loaded table: its rows plus whether the optional `trans_minute`
column is present (the other component columns are assumed present, as
in every scenario the claims exercise). -/
structure Table where
  rows : List RawRow
  hasMinuteCol : Bool

/-- Lines 105-112 for a whole table. When `trans_minute` is absent,
`df.get("trans_minute", 0)` returns the scalar int `0`, and the
immediately following `.astype(str)` raises `AttributeError` — the
construction does not fall back to minute 0. -/
def normalizeTable (t : Table) : Except String (List (Option DateTime)) :=
  if t.hasMinuteCol then
    .ok (t.rows.map event_time)
  else
    .error "AttributeError: int object has no attribute astype"

/-- The rows for which normalization produced an `event_time`: the
"normalized set" of the spec. (No statement in the script drops the
other rows from `df` itself; only the period aggregation ignores them.) -/
def normalizedRows (rows : List RawRow) : List RawRow :=
  rows.filter (fun r => (event_time r).isSome)

/- ===== KPI scalars, lines 80-92, computed over the FULL table `df` ===== -/

/-- Line 80: `df.loc[df["prediction"] == 1, "amt"].sum()`. -/
def fraud_amount (rows : List RawRow) : ℚ :=
  ((rows.filter (fun r => r.prediction = 1)).map RawRow.amt).sum

/-- Line 84: `len(df)`. -/
def kpi_total_count (rows : List RawRow) : Nat :=
  rows.length

/-- Line 86: `df["prediction"].sum()`. -/
def kpi_fraud_count (rows : List RawRow) : ℚ :=
  (rows.map RawRow.prediction).sum

/-- Line 88: `100*df["prediction"].mean()` with `mean = sum/len`. -/
def kpi_fraud_rate (rows : List RawRow) : ℚ :=
  100 * ((rows.map RawRow.prediction).sum / (rows.length : ℚ))

/-- Line 90: `df["amt"].sum()`. -/
def kpi_total_amount (rows : List RawRow) : ℚ :=
  (rows.map RawRow.amt).sum

/- ===== Period bucketing and aggregation, lines 118-132 ===== -/

/-- Line 119 (hour granularity): `event_time.dt.to_period("H").start_time`
floors to the start of the containing clock hour. -/
def periodHour (t : DateTime) : DateTime :=
  { t with minute := 0 }

/-- Injective order-preserving key of a (valid) date-time, used to
express chronological order. -/
def DateTime.key (t : DateTime) : Int :=
  (((t.year * 13 + t.month) * 32 + t.day) * 24 + t.hour) * 60 + t.minute

/-- Chronological order on date-times via their key. -/
def dtLE (a b : DateTime) : Prop := a.key ≤ b.key

instance : DecidableRel dtLE := fun a b => Int.decLe a.key b.key

instance : IsTotal DateTime dtLE := ⟨fun a b => le_total a.key b.key⟩

instance : IsTrans DateTime dtLE := ⟨fun _ _ _ h h2 => le_trans h h2⟩

/-- The `(period, prediction)` columns the chart aggregation reads
(lines 119 and 127), with hour granularity: a missing `event_time`
yields a missing period (`NaT`). -/
def chartPairs (rows : List RawRow) : List (Option DateTime × ℚ) :=
  rows.map (fun r => ((event_time r).map periodHour, r.prediction))

/-- The distinct periods present in the pair list; `groupby` ignores
missing keys. -/
def presentPeriods (l : List (Option DateTime × ℚ)) : List DateTime :=
  (l.filterMap Prod.fst).dedup

/-- `groupby` emits its keys sorted ascending. -/
def sortedPeriods (l : List (Option DateTime × ℚ)) : List DateTime :=
  List.insertionSort dtLE (presentPeriods l)

/-- The prediction values of the rows falling in bucket `p`. -/
def bucket (l : List (Option DateTime × ℚ)) (p : DateTime) : List ℚ :=
  l.filterMap (fun x => if x.1 = some p then some x.2 else none)

/-- Lines 127-132: `df.groupby("period")["prediction"].mean()` followed
by `fraud_rate = prediction * 100`: one output row per distinct present
period, keys ascending, value `100 * mean(prediction)` over the bucket. -/
def fraude_by_period (l : List (Option DateTime × ℚ)) : List (DateTime × ℚ) :=
  (sortedPeriods l).map (fun p => (p, 100 * ((bucket l p).sum / ((bucket l p).length : ℚ))))

/- ===== Categorical breakdowns, lines 151 and 161-180 ===== -/

/-- Line 151: the category values fed to `value_counts`, from the
`prediction == 1` rows of the full table. -/
def fraude_cat_input (rows : List RawRow) : List String :=
  (rows.filter (fun r => r.prediction = 1)).map RawRow.category

/-- Lines 161-175: the fixed two-letter-code to full-name lookup table. -/
def US_STATES : List (String × String) :=
  [("AL", "Alabama"), ("AK", "Alaska"), ("AZ", "Arizona"), ("AR", "Arkansas"),
   ("CA", "California"), ("CO", "Colorado"), ("CT", "Connecticut"), ("DE", "Delaware"),
   ("FL", "Florida"), ("GA", "Georgia"), ("HI", "Hawaii"), ("ID", "Idaho"),
   ("IL", "Illinois"), ("IN", "Indiana"), ("IA", "Iowa"), ("KS", "Kansas"),
   ("KY", "Kentucky"), ("LA", "Louisiana"), ("ME", "Maine"), ("MD", "Maryland"),
   ("MA", "Massachusetts"), ("MI", "Michigan"), ("MN", "Minnesota"), ("MS", "Mississippi"),
   ("MO", "Missouri"), ("MT", "Montana"), ("NE", "Nebraska"), ("NV", "Nevada"),
   ("NH", "New Hampshire"), ("NJ", "New Jersey"), ("NM", "New Mexico"), ("NY", "New York"),
   ("NC", "North Carolina"), ("ND", "North Dakota"), ("OH", "Ohio"), ("OK", "Oklahoma"),
   ("OR", "Oregon"), ("PA", "Pennsylvania"), ("RI", "Rhode Island"), ("SC", "South Carolina"),
   ("SD", "South Dakota"), ("TN", "Tennessee"), ("TX", "Texas"), ("UT", "Utah"),
   ("VT", "Vermont"), ("VA", "Virginia"), ("WA", "Washington"), ("WV", "West Virginia"),
   ("WI", "Wisconsin"), ("WY", "Wyoming")]

/-- Line 177: `df["state"].map(US_STATES).fillna(df["state"])` — a code
in the table maps to its full name, anything else passes through. -/
def state_full (s : String) : String :=
  ((US_STATES.lookup s).getD s)

/-- Line 179: the resolved state names fed to `value_counts`, from the
`prediction == 1` rows of the full table. -/
def fraudes_par_state_input (rows : List RawRow) : List String :=
  (rows.filter (fun r => r.prediction = 1)).map (fun r => state_full r.state)

/- ===== Detail table and export, lines 195-208 ===== -/

/-- Line 203: `df_display[df_display["prediction"] == 1]` — the detail
table (and the CSV export built from it at line 207) keeps every
`prediction == 1` row of the full table `df`. -/
def fraude_details (rows : List RawRow) : List RawRow :=
  rows.filter (fun r => r.prediction = 1)

/-- Line 198: the fixed leading column order of the display table. -/
def cols_order : List String :=
  ["trans_number", "date", "amt", "probability", "state_full"]

/-- Line 195: `df.rename(columns={"unnamed_0": "trans_number"})` on the
column names. -/
def renameUnnamed (cols : List String) : List String :=
  cols.map (fun c => if c = "unnamed_0" then "trans_number" else c)

/-- The columns of `df` at line 195: the loaded columns plus the derived
`event_time` (line 105), `period` (line 119) and `state_full` (line 177). -/
def pipelineCols (cols : List String) : List String :=
  cols ++ ["event_time", "period", "state_full"]

/-- The columns of `df_display` at line 197: renamed pipeline columns
plus the derived `date` column (line 196). -/
def df_display_cols (cols : List String) : List String :=
  renameUnnamed (pipelineCols cols) ++ ["date"]

/-- Lines 198-200: `df_display[cols_order + other_cols]` — pandas
column selection raises `KeyError` when a requested label is missing. -/
def reorderDisplay (cols : List String) : Except String (List String) :=
  let avail := df_display_cols cols
  if ∀ c ∈ cols_order, c ∈ avail then
    .ok (cols_order ++ avail.filter (fun c => ¬ c ∈ cols_order))
  else
    .error "KeyError"

/- ===== Epoch-column branch of the normalizer (not in src/app.py) ===== -/

/-- Digit count of an epoch value, as the string length of its decimal
rendering. -/
def digitCount (v : Nat) : Nat :=
  (Nat.toDigits 10 v).length

/-- Maximum digit count over an epoch column. -/
def maxDigits (col : List Nat) : Nat :=
  (col.map digitCount).foldr max 0

/-- Modelled from the spec: the numeric-epoch branch of the Timestamp
Normalizer is absent from `src/app.py` (the repository's other,
near-duplicate file variant carries it and is not under `src/`).
Per the spec: compute the maximum string-length (digit count) of the
column's values; 10 means whole seconds since the epoch origin, 13
means milliseconds (divide by 1000 before conversion), and any other
digit count makes the entire column unusable, every row getting a
missing `event_time`. Times are in seconds after the epoch origin. -/
def normalizeEpoch (col : List Nat) : List (Option ℚ) :=
  if maxDigits col = 10 then col.map (fun v => some (v : ℚ))
  else if maxDigits col = 13 then col.map (fun v => some ((v : ℚ) / 1000))
  else col.map (fun _ => none)

/- ===== Concrete example data ===== -/

/-- A row with a valid timestamp (2024-03-05 14:30). -/
def rowA : RawRow :=
  { prediction := 0, amt := 10, category := "grocery", state := "CA",
    trans_year := 2024, trans_month := 3, trans_day := 5,
    trans_hour := 14, trans_minute := 30 }

/-- A predicted-fraud row whose components are not a valid date
(month 13), so its `event_time` cannot be constructed. -/
def rowB : RawRow :=
  { prediction := 1, amt := 7, category := "travel", state := "ZZ",
    trans_year := 2024, trans_month := 13, trans_day := 5,
    trans_hour := 14, trans_minute := 30 }

/-- A two-row example table with one valid-time row and one
unconstructable-time row. -/
def exRows : List RawRow := [rowA, rowB]

/-- The example table with the optional minute column absent. -/
def exTableNoMinute : Table := { rows := [rowA], hasMinuteCol := false }

/-- Example chart input: two rows in the 14:00 bucket (predictions 0 and
1), one row in the 15:00 bucket, and one row with a missing period. -/
def exPairs : List (Option DateTime × ℚ) :=
  [(some ⟨2024, 3, 5, 15, 0⟩, 1), (some ⟨2024, 3, 5, 14, 0⟩, 0),
   (none, 1), (some ⟨2024, 3, 5, 14, 0⟩, 1)]

/- ===== Helper lemmas ===== -/

theorem pred_sum_nonneg (rows : List RawRow)
    (h01 : ∀ r ∈ rows, r.prediction = 0 ∨ r.prediction = 1) :
    0 ≤ (rows.map RawRow.prediction).sum := by
  induction rows with
  | nil => simp
  | cons a l ih =>
    simp only [List.map_cons, List.sum_cons]
    have ha := h01 a (List.mem_cons_self a l)
    have hl := ih (fun r hr => h01 r (List.mem_cons_of_mem a hr))
    rcases ha with h | h <;> rw [h] <;> linarith

theorem pred_sum_le_length (rows : List RawRow)
    (h01 : ∀ r ∈ rows, r.prediction = 0 ∨ r.prediction = 1) :
    (rows.map RawRow.prediction).sum ≤ (rows.length : ℚ) := by
  induction rows with
  | nil => simp
  | cons a l ih =>
    simp only [List.map_cons, List.sum_cons, List.length_cons]
    have ha := h01 a (List.mem_cons_self a l)
    have hl := ih (fun r hr => h01 r (List.mem_cons_of_mem a hr))
    push_cast
    rcases ha with h | h <;> rw [h] <;> linarith

/- ===== Claim theorems ===== -/

/-- C2: when a numeric epoch column is present, the normalizer inspects
the maximum digit count of its values: 10 means each value is whole
seconds since the epoch origin, 13 means milliseconds (divide by 1000
before conversion), and any other digit count makes the entire column
unusable, every row getting a missing event_time. -/
theorem claim_C2 (col : List Nat) :
    (maxDigits col = 10 → normalizeEpoch col = col.map (fun v => some (v : ℚ))) ∧
    (maxDigits col = 13 → normalizeEpoch col = col.map (fun v => some ((v : ℚ) / 1000))) ∧
    (maxDigits col ≠ 10 → maxDigits col ≠ 13 → normalizeEpoch col = col.map (fun _ => none)) := by
  refine ⟨fun h => ?_, fun h => ?_, fun h10 h13 => ?_⟩
  · simp [normalizeEpoch, h]
  · simp [normalizeEpoch, h]
  · simp [normalizeEpoch, h10, h13]

theorem claim_C2_witness :
    normalizeEpoch [1700000000] = [1700000000].map (fun v => some (v : ℚ)) ∧
    normalizeEpoch [1700000000123] = [1700000000123].map (fun v => some ((v : ℚ) / 1000)) ∧
    normalizeEpoch [12345] = [12345].map (fun _ => none) :=
  ⟨(claim_C2 [1700000000]).1 (by decide),
   (claim_C2 [1700000000123]).2.1 (by decide),
   (claim_C2 [12345]).2.2 (by decide) (by decide)⟩

/-- C6: for a non-empty table whose prediction column takes only values
0 and 1, the global fraud-rate KPI equals 100 times fraud count over
total count exactly, and lies in the interval from 0 to 100. -/
theorem claim_C6 (rows : List RawRow) (hne : rows ≠ [])
    (h01 : ∀ r ∈ rows, r.prediction = 0 ∨ r.prediction = 1) :
    kpi_fraud_rate rows = 100 * (kpi_fraud_count rows / (kpi_total_count rows : ℚ)) ∧
    0 ≤ kpi_fraud_rate rows ∧ kpi_fraud_rate rows ≤ 100 := by
  have hn : 0 < ((rows.length : ℚ)) := by
    have h := List.length_pos.mpr hne
    exact_mod_cast h
  have h0 := pred_sum_nonneg rows h01
  have h1 := pred_sum_le_length rows h01
  have hdiv : (rows.map RawRow.prediction).sum / (rows.length : ℚ) ≤ 1 :=
    (div_le_one hn).mpr h1
  have hdiv0 : 0 ≤ (rows.map RawRow.prediction).sum / (rows.length : ℚ) :=
    div_nonneg h0 (le_of_lt hn)
  refine ⟨rfl, ?_, ?_⟩
  · unfold kpi_fraud_rate
    linarith
  · unfold kpi_fraud_rate
    linarith

theorem claim_C6_witness :
    kpi_fraud_rate exRows = 100 * (kpi_fraud_count exRows / (kpi_total_count exRows : ℚ)) ∧
    0 ≤ kpi_fraud_rate exRows ∧ kpi_fraud_rate exRows ≤ 100 :=
  claim_C6 exRows (by decide) (by decide)

/-- C7: when every amount in the table is non-negative, the
total-fraudulent-amount KPI is at most the total-analyzed-amount KPI. -/
theorem claim_C7 (rows : List RawRow) (hnn : ∀ r ∈ rows, 0 ≤ r.amt) :
    fraud_amount rows ≤ kpi_total_amount rows := by
  induction rows with
  | nil => simp [fraud_amount, kpi_total_amount]
  | cons a l ih =>
    have ha := hnn a (List.mem_cons_self a l)
    have ihl := ih (fun r hr => hnn r (List.mem_cons_of_mem a hr))
    unfold fraud_amount kpi_total_amount at ihl ⊢
    by_cases hp : a.prediction = 1
    · simp only [List.filter_cons, hp, decide_True, if_true, List.map_cons, List.sum_cons]
      linarith
    · simp [List.filter_cons, hp]
      linarith

theorem claim_C7_witness : fraud_amount exRows ≤ kpi_total_amount exRows :=
  claim_C7 exRows (by decide)

/-- C8: the state lookup table has exactly 50 entries; a two-letter code
present in it resolves to its full state name, and a code absent from it
passes through unchanged as its own display value. -/
theorem claim_C8 :
    US_STATES.length = 50 ∧
    (∀ s n, US_STATES.lookup s = some n → state_full s = n) ∧
    (∀ s, US_STATES.lookup s = none → state_full s = s) := by
  refine ⟨rfl, fun s n h => ?_, fun s h => ?_⟩ <;> simp [state_full, h]

theorem claim_C8_witness : state_full "CA" = "California" ∧ state_full "ZZ" = "ZZ" :=
  ⟨claim_C8.2.1 "CA" "California" (by decide), claim_C8.2.2 "ZZ" (by decide)⟩

/-- C10: building the detail/export view needs the loaded table to
carry `unnamed_0` (renamed to `trans_number`) and `probability` on top
of the spec's required columns: when either is missing, the
column-reordering step fails with a KeyError instead of producing the
detail view or export, even with all spec-required columns present. -/
theorem claim_C10 (cols : List String)
    (hreq : "prediction" ∈ cols ∧ "amt" ∈ cols ∧ "category" ∈ cols ∧ "state" ∈ cols ∧
      "trans_year" ∈ cols ∧ "trans_month" ∈ cols ∧ "trans_day" ∈ cols ∧ "trans_hour" ∈ cols)
    (hmiss : ("unnamed_0" ∉ cols ∧ "trans_number" ∉ cols) ∨ "probability" ∉ cols) :
    reorderDisplay cols = .error "KeyError" := by
  have key : ¬ (∀ c ∈ cols_order, c ∈ df_display_cols cols) := by
    intro hall
    rcases hmiss with ⟨h1, h2⟩ | h3
    · have htn := hall "trans_number" (by simp [cols_order])
      simp only [df_display_cols, renameUnnamed, pipelineCols, List.mem_append,
        List.mem_map, List.mem_cons, List.mem_singleton] at htn
      rcases htn with ⟨c, hc, hce⟩ | hd
      · by_cases hcu : c = "unnamed_0"
        · rcases hc with hc | hc
          · exact h1 (hcu ▸ hc)
          · simp [hcu] at hc
        · rw [if_neg hcu] at hce
          subst hce
          rcases hc with hc | hc
          · exact h2 hc
          · simp at hc
      · simp at hd
    · have hpr := hall "probability" (by simp [cols_order])
      simp only [df_display_cols, renameUnnamed, pipelineCols, List.mem_append,
        List.mem_map, List.mem_cons, List.mem_singleton] at hpr
      rcases hpr with ⟨c, hc, hce⟩ | hd
      · by_cases hcu : c = "unnamed_0"
        · rw [if_pos hcu] at hce
          simp at hce
        · rw [if_neg hcu] at hce
          subst hce
          rcases hc with hc | hc
          · exact h3 hc
          · simp at hc
      · simp at hd
  unfold reorderDisplay
  rw [if_neg key]

theorem claim_C10_witness :
    reorderDisplay ["prediction", "amt", "category", "state", "trans_year",
      "trans_month", "trans_day", "trans_hour", "trans_minute"] = .error "KeyError" :=
  claim_C10 _ (by decide) (Or.inl (by decide))

/-- C1 (as stated, refuted): the claim says rows whose `event_time`
cannot be constructed are filtered out once after normalization and are
absent from every downstream view. On the two-row example table, the
row with unconstructable `event_time` (month 13) is still present in
the detail/export view and still counted by the total-count KPI, so the
claim is false of the code. -/
theorem claim_C1_counterexample :
    event_time rowB = none ∧
    rowB ∈ fraude_details exRows ∧
    kpi_total_count exRows = 2 ∧
    (normalizedRows exRows).length = 1 := by
  decide

/-- C1 (amended): no filtering step removes rows with missing
`event_time` from the table: the KPI scalars count every loaded row,
a predicted-fraud row with missing `event_time` still appears in the
detail/export view and in both categorical-breakdown inputs, and only
the period aggregation excludes such rows — every period it emits comes
from some row whose `event_time` was constructed. -/
theorem claim_C1_amended (rows : List RawRow) (r : RawRow) (hr : r ∈ rows)
    (hnone : event_time r = none) :
    kpi_total_count rows = rows.length ∧
    (r.prediction = 1 →
      r ∈ fraude_details rows ∧
      r.category ∈ fraude_cat_input rows ∧
      state_full r.state ∈ fraudes_par_state_input rows) ∧
    (∀ p ∈ (fraude_by_period (chartPairs rows)).map Prod.fst,
      ∃ r2 ∈ rows, (event_time r2).map periodHour = some p) := by
  refine ⟨rfl, fun hp => ?_, fun p hpmem => ?_⟩
  · have hmem : r ∈ rows.filter (fun r => decide (r.prediction = 1)) :=
      List.mem_filter.mpr ⟨hr, by simp [hp]⟩
    exact ⟨hmem, List.mem_map.mpr ⟨r, hmem, rfl⟩, List.mem_map.mpr ⟨r, hmem, rfl⟩⟩
  · have hkey : p ∈ sortedPeriods (chartPairs rows) := by
      have : (fraude_by_period (chartPairs rows)).map Prod.fst
          = sortedPeriods (chartPairs rows) := by
        unfold fraude_by_period
        rw [List.map_map]
        show List.map (fun p => p) _ = _
        exact List.map_id' _
      rwa [this] at hpmem
    have hded : p ∈ presentPeriods (chartPairs rows) :=
      (List.perm_insertionSort dtLE _).mem_iff.mp hkey
    have hfm : p ∈ (chartPairs rows).filterMap Prod.fst :=
      List.mem_dedup.mp hded
    rcases List.mem_filterMap.mp hfm with ⟨x, hx, hx1⟩
    rcases List.mem_map.mp hx with ⟨r2, hr2, hr2e⟩
    exact ⟨r2, hr2, by rw [← hr2e] at hx1; exact hx1⟩

theorem claim_C1_amended_witness :
    kpi_total_count exRows = exRows.length ∧
    (rowB.prediction = 1 →
      rowB ∈ fraude_details exRows ∧
      rowB.category ∈ fraude_cat_input exRows ∧
      state_full rowB.state ∈ fraudes_par_state_input exRows) ∧
    (∀ p ∈ (fraude_by_period (chartPairs exRows)).map Prod.fst,
      ∃ r2 ∈ exRows, (event_time r2).map periodHour = some p) :=
  claim_C1_amended exRows rowB (by decide) (by decide)

/-- C3 (refuted by the code, claim matches the intent): with the four
component columns present but `trans_minute` absent, the claim says an
`event_time` is still produced with minute defaulting to 0; the code's
`df.get("trans_minute", 0)` returns the scalar int 0 and the chained
`.astype(str)` raises AttributeError, so normalization fails instead. -/
theorem claim_C3_bug :
    normalizeTable exTableNoMinute =
      .error "AttributeError: int object has no attribute astype" := by
  rfl

/-- C4: a row with components year 2024, month 3, day 5, hour 14,
minute 30 normalizes to the point-in-time 2024-03-05T14:30:00; a row
with month 13 is coerced to missing (no error is raised: the
construction is total) and is absent from the set of rows for which
normalization produced an `event_time`. -/
theorem claim_C4 (rows : List RawRow) (r : RawRow) (hr : r ∈ rows) :
    ((r.trans_year, r.trans_month, r.trans_day, r.trans_hour, r.trans_minute)
        = (2024, 3, 5, 14, 30) →
      event_time r = some ⟨2024, 3, 5, 14, 30⟩) ∧
    (r.trans_month = 13 →
      event_time r = none ∧ r ∉ normalizedRows rows) := by
  constructor
  · intro h
    simp only [Prod.mk.injEq] at h
    obtain ⟨h1, h2, h3, h4, h5⟩ := h
    unfold event_time
    rw [h1, h2, h3, h4, h5]
    decide
  · intro h13
    have hnone : event_time r = none := by
      unfold event_time toDatetimeCoerce
      rw [if_neg]
      intro hv
      unfold validDT at hv
      obtain ⟨-, -, -, hm, -⟩ := hv
      omega
    refine ⟨hnone, fun hmem => ?_⟩
    have := (List.mem_filter.mp hmem).2
    rw [hnone] at this
    simp at this

theorem claim_C4_witness :
    event_time rowB = none ∧ rowB ∉ normalizedRows exRows :=
  (claim_C4 exRows rowB (by decide)).2 rfl

theorem mem_sortedPeriods (l : List (Option DateTime × ℚ)) (p : DateTime) :
    p ∈ sortedPeriods l ↔ ∃ x ∈ l, x.1 = some p := by
  unfold sortedPeriods presentPeriods
  rw [(List.perm_insertionSort dtLE _).mem_iff, List.mem_dedup, List.mem_filterMap]

theorem keys_fraude_by_period (l : List (Option DateTime × ℚ)) :
    (fraude_by_period l).map Prod.fst = sortedPeriods l := by
  unfold fraude_by_period
  rw [List.map_map]
  show List.map (fun p => p) _ = _
  exact List.map_id' _

/-- C5: the period aggregation outputs one row per distinct period
present in the input (no duplicate periods, and a period appears
exactly when some input row carries it — empty buckets are absent),
ordered by period ascending, each row carrying
fraud_rate = 100 times the mean of prediction over its bucket. -/
theorem claim_C5 (l : List (Option DateTime × ℚ)) :
    ((fraude_by_period l).map Prod.fst).Nodup ∧
    List.Sorted dtLE ((fraude_by_period l).map Prod.fst) ∧
    (∀ p, p ∈ (fraude_by_period l).map Prod.fst ↔ some p ∈ l.map Prod.fst) ∧
    (∀ pr ∈ fraude_by_period l,
      pr.2 = 100 * ((bucket l pr.1).sum / ((bucket l pr.1).length : ℚ)) ∧
      bucket l pr.1 ≠ []) := by
  refine ⟨?_, ?_, ?_, ?_⟩
  · rw [keys_fraude_by_period]
    exact (List.perm_insertionSort dtLE _).nodup_iff.mpr (List.nodup_dedup _)
  · rw [keys_fraude_by_period]
    exact List.sorted_insertionSort dtLE _
  · intro p
    rw [keys_fraude_by_period, mem_sortedPeriods, List.mem_map]
  · intro pr hpr
    unfold fraude_by_period at hpr
    rcases List.mem_map.mp hpr with ⟨p, hp, rfl⟩
    rw [mem_sortedPeriods] at hp
    rcases hp with ⟨x, hx, hx1⟩
    have hxb : x.2 ∈ bucket l p := by
      refine List.mem_filterMap.mpr ⟨x, hx, ?_⟩
      rw [hx1]
      simp
    exact ⟨rfl, List.ne_nil_of_mem hxb⟩

theorem claim_C5_witness :
    (⟨2024, 3, 5, 14, 0⟩ : DateTime) ∈ (fraude_by_period exPairs).map Prod.fst ∧
    ¬ (⟨2024, 3, 5, 16, 0⟩ : DateTime) ∈ (fraude_by_period exPairs).map Prod.fst :=
  ⟨((claim_C5 exPairs).2.2.1 _).mpr (by decide),
   fun h => by
    have := ((claim_C5 exPairs).2.2.1 ⟨2024, 3, 5, 16, 0⟩).mp h
    revert this
    decide⟩

theorem bucket_length_count (l : List (Option DateTime × ℚ)) (p : DateTime) :
    (bucket l p).length = (l.filterMap Prod.fst).count p := by
  induction l with
  | nil => rfl
  | cons x t ih =>
    by_cases hx : x.1 = some p
    · have hb : bucket (x :: t) p = x.2 :: bucket t p := by
        unfold bucket
        rw [List.filterMap_cons]
        simp [hx]
      have hf : (x :: t).filterMap Prod.fst = p :: t.filterMap Prod.fst := by
        rw [List.filterMap_cons, hx]
      rw [hb, hf, List.length_cons, List.count_cons_self, ih]
    · have hb : bucket (x :: t) p = bucket t p := by
        unfold bucket
        rw [List.filterMap_cons]
        simp [hx]
      cases hx1 : x.1 with
      | none =>
        have hf : (x :: t).filterMap Prod.fst = t.filterMap Prod.fst := by
          rw [List.filterMap_cons, hx1]
        rw [hb, hf, ih]
      | some q =>
        have hq : p ≠ q := by
          intro he
          exact hx (by rw [hx1, he])
        have hf : (x :: t).filterMap Prod.fst = q :: t.filterMap Prod.fst := by
          rw [List.filterMap_cons, hx1]
        rw [hb, hf, List.count_cons_of_ne hq, ih]

theorem length_filterMap_period (rows : List RawRow) :
    (rows.filterMap (fun r => (event_time r).map periodHour)).length
      = (normalizedRows rows).length := by
  induction rows with
  | nil => rfl
  | cons a t ih =>
    unfold normalizedRows at ih ⊢
    cases ha : event_time a with
    | none => simp [List.filterMap_cons, List.filter_cons, ha, ih]
    | some d => simp [List.filterMap_cons, List.filter_cons, ha, ih]

/-- C9: with hour granularity, the per-bucket row counts of the period
aggregation sum to the number of rows of the normalized (valid
`event_time`) row set: bucketing alone neither loses nor duplicates
rows. -/
theorem claim_C9 (rows : List RawRow) :
    ((fraude_by_period (chartPairs rows)).map
        (fun pr => (bucket (chartPairs rows) pr.1).length)).sum
      = (normalizedRows rows).length := by
  have h1 : (fraude_by_period (chartPairs rows)).map
      (fun pr => (bucket (chartPairs rows) pr.1).length)
      = (sortedPeriods (chartPairs rows)).map
        (fun p => (bucket (chartPairs rows) p).length) := by
    unfold fraude_by_period
    rw [List.map_map]
    rfl
  rw [h1]
  have h2 : (sortedPeriods (chartPairs rows)).map
      (fun p => (bucket (chartPairs rows) p).length)
      = (sortedPeriods (chartPairs rows)).map
        (fun p => ((chartPairs rows).filterMap Prod.fst).count p) :=
    List.map_congr_left (fun p _ => bucket_length_count (chartPairs rows) p)
  rw [h2]
  have h3 : ((sortedPeriods (chartPairs rows)).map
      (fun p => ((chartPairs rows).filterMap Prod.fst).count p)).sum
      = ((((chartPairs rows).filterMap Prod.fst).dedup).map
        (fun p => ((chartPairs rows).filterMap Prod.fst).count p)).sum :=
    ((List.perm_insertionSort dtLE _).map _).sum_eq
  rw [h3, List.sum_map_count_dedup_eq_length]
  have h4 : (chartPairs rows).filterMap Prod.fst
      = rows.filterMap (fun r => (event_time r).map periodHour) := by
    unfold chartPairs
    rw [List.filterMap_map]
    rfl
  rw [h4, length_filterMap_period]

end FraudApp
